import Mathlib

/-!
Verification development for the `cmr_token_creator` AWS Lambda
(`src/cmr_token_creator.py`): the token-lifecycle pipeline
`lambda_handler` → `get_edl_creds` → `generate_token` / `handle_token_error`
→ `store_token`.

The Python functions are embedded as pure Lean functions.  Every remote
collaborator (identity provider, SSM parameter store, KMS) is an oracle
passed in as data, and every function returns its result together with the
list of observable events it produced (HTTP calls, SSM/KMS calls, log
lines), in the order the Python code performs them.  Python exceptions are
modelled with `Except`.
-/

namespace CmrTokenCreator

/-- A value passed as the `Value` argument of `put_parameter`.  The Python
code passes either the token string or the literal `False` (the failure
result of `generate_token`). -/
inductive PVal where
  | str (s : String)
  | boolFalse
deriving DecidableEq

/-- The keyword arguments of the single `ssm_client.put_parameter` call in
`store_token` (source lines 131-139). -/
structure PutParam where
  name : String
  description : String
  value : PVal
  ptype : String
  keyId : String
  overwrite : Bool
  tier : String
deriving DecidableEq

/-- Observable events, in program order: HTTP calls to the identity
provider, SSM/KMS calls, and log lines. -/
inductive Ev where
  | httpCreate
  | httpList
  | httpRevoke (t : String)
  | ssmGet (name : String)
  | kmsDescribeKey (keyId : String)
  | ssmPut (p : PutParam)
  | logInfo (m : String)
  | logError (m : String)
deriving DecidableEq

/-- JSON object returned by `POST /api/users/token`, as far as the code
inspects it: presence and value of the `error` and `access_token` fields. -/
structure TokenResp where
  error : Option String
  access_token : Option String
deriving DecidableEq

/-- One entry of the JSON array returned by `GET /api/users/tokens`; the
code only looks for an `access_token` field. -/
structure TokEntry where
  access_token : Option String
deriving DecidableEq

/-- The identity provider oracle: the response to the first token-creation
request, the response to the list-tokens request, and the response to the
(at most one) retried token-creation request. -/
structure Provider where
  resp1 : TokenResp
  listResp : List TokEntry
  resp2 : TokenResp

/-- Result of `generate_token`: the Python function returns either a token
string or the boolean literal `False` (modelled by `failed`). -/
inductive GenResult where
  | tok (s : String)
  | failed
deriving DecidableEq

/-- Python exceptions relevant to this program: an uncaught `KeyError`
(missing JSON field) and `botocore.exceptions.ClientError`. -/
inductive PyErr where
  | keyError (k : String)
  | clientError (m : String)
deriving DecidableEq

/-- Result of `lambda_handler`: normal return (process exit 0),
`sys.exit(1)`, or an uncaught exception. -/
inductive RunResult where
  | ok
  | exit1
  | uncaught (e : PyErr)
deriving DecidableEq

/-- The AWS oracles: `ssm.get_parameter` (name ↦ decrypted value or
`ClientError`), `kms.describe_key` (KeyId argument ↦ key id or
`ClientError`), `ssm.put_parameter` (arguments ↦ success or
`ClientError`). -/
structure AwsEnv where
  get_parameter : String → Except String String
  describe_key : String → Except String String
  put_parameter : PutParam → Except String Unit

/- Log messages, verbatim from the source. -/

def attemptMsg : String := "Attempting to create token."

def credOkMsg : String := "Retrieved EDL username and password."

def credErrMsg : String := "Could not retrieve EDL credentials from SSM Parameter Store."

def edlErrMsg : String := "Error encountered when trying to retrieve bearer token from EDL."

def genOkMsg : String := "Successfully generated EDL bearer token."

def storeOkMsg : String := "EDL bearer token has been stored as a secure string in SSM Parameter Store."

def storeErrMsg : String := "Could not store EDL bearer token in SSM Parameter Store."

def exitMsg : String := "Program exiting."

/-- Embedding of `get_edl_creds` (source lines 68-83): two decrypted
parameter-store reads; on `ClientError` log twice and re-raise. -/
def get_edl_creds (env : AwsEnv) : Except PyErr (String × String) × List Ev :=
  match env.get_parameter "edl_username" with
  | Except.error e =>
      (Except.error (PyErr.clientError e),
       [Ev.ssmGet "edl_username", Ev.logError credErrMsg, Ev.logError e])
  | Except.ok u =>
      match env.get_parameter "edl_password" with
      | Except.error e =>
          (Except.error (PyErr.clientError e),
           [Ev.ssmGet "edl_username", Ev.ssmGet "edl_password",
            Ev.logError credErrMsg, Ev.logError e])
      | Except.ok pw =>
          (Except.ok (u, pw),
           [Ev.ssmGet "edl_username", Ev.ssmGet "edl_password",
            Ev.logInfo credOkMsg])

/-- The revoke requests issued by the loop at source lines 108-110: one
`POST revoke_token?token=...` per listed entry with an `access_token`
field, in list order; entries without the field are skipped. -/
def revokeEvents : List TokEntry → List Ev
  | [] => []
  | e :: rest =>
      match e.access_token with
      | some t => Ev.httpRevoke t :: revokeEvents rest
      | none => revokeEvents rest

/-- Embedding of `handle_token_error` (source lines 101-119): list all
tokens, revoke every listed token carrying an `access_token`, then retry
token creation once.  An `error` field in the retried response yields
`False` after logging; otherwise `token_data["access_token"]` is returned,
raising `KeyError` if absent. -/
def handle_token_error (p : Provider) : Except PyErr GenResult × List Ev :=
  let evs := Ev.httpList :: (revokeEvents p.listResp ++ [Ev.httpCreate])
  match p.resp2.error with
  | some _ =>
      (Except.ok GenResult.failed, evs ++ [Ev.logError edlErrMsg])
  | none =>
      match p.resp2.access_token with
      | some t => (Except.ok (GenResult.tok t), evs)
      | none => (Except.error (PyErr.keyError "access_token"), evs)

/-- Embedding of `generate_token` (source lines 85-99).  One creation
request; on `error = "max_token_limit"` delegate to `handle_token_error`;
on any other `error` log and return `False` immediately; otherwise read
`token_data["access_token"]` (raising `KeyError` if absent).  Unless the
function returned early at line 95 or an exception propagated, the success
message is logged before returning. -/
def generate_token (p : Provider) : Except PyErr GenResult × List Ev :=
  match p.resp1.error with
  | some e =>
      if e = "max_token_limit" then
        match handle_token_error p with
        | (Except.ok r, evs) =>
            (Except.ok r, Ev.httpCreate :: (evs ++ [Ev.logInfo genOkMsg]))
        | (Except.error err, evs) =>
            (Except.error err, Ev.httpCreate :: evs)
      else
        (Except.ok GenResult.failed, [Ev.httpCreate, Ev.logError edlErrMsg])
  | none =>
      match p.resp1.access_token with
      | some t =>
          (Except.ok (GenResult.tok t),
           [Ev.httpCreate, Ev.logInfo genOkMsg])
      | none =>
          (Except.error (PyErr.keyError "access_token"), [Ev.httpCreate])

/-- The KeyId argument passed to `kms.describe_key` at source line 127. -/
def keyAlias (pfx : String) : String :=
  "alias/" ++ pfx ++ "-ssm-parameter-store"

/-- The arguments of the `put_parameter` call at source lines 131-139. -/
def tokenPut (token : PVal) (key : String) : PutParam :=
  { name := "bearer--edl--token"
    description := "Temporary EDL bearer token"
    value := token
    ptype := "SecureString"
    keyId := key
    overwrite := true
    tier := "Standard" }

/-- Embedding of `store_token` (source lines 121-144): resolve the key
alias, then write the parameter; any `ClientError` is logged twice and
re-raised. -/
def store_token (env : AwsEnv) (token : PVal) (pfx : String) :
    Except PyErr Unit × List Ev :=
  match env.describe_key (keyAlias pfx) with
  | Except.error e =>
      (Except.error (PyErr.clientError e),
       [Ev.kmsDescribeKey (keyAlias pfx), Ev.logError storeErrMsg,
        Ev.logError e])
  | Except.ok key =>
      match env.put_parameter (tokenPut token key) with
      | Except.error e =>
          (Except.error (PyErr.clientError e),
           [Ev.kmsDescribeKey (keyAlias pfx), Ev.ssmPut (tokenPut token key),
            Ev.logError storeErrMsg, Ev.logError e])
      | Except.ok _ =>
          (Except.ok (),
           [Ev.kmsDescribeKey (keyAlias pfx), Ev.ssmPut (tokenPut token key),
            Ev.logInfo storeOkMsg])

/-- The value `lambda_handler` passes as `Value` to `store_token`: the
token string, or the Python literal `False` when generation failed. -/
def tokToPVal : GenResult → PVal
  | GenResult.tok s => PVal.str s
  | GenResult.failed => PVal.boolFalse

/-- Embedding of `lambda_handler` (source lines 24-41).  The `try` block
runs `get_edl_creds`, `generate_token`, `store_token`, and only then
checks `if not token: sys.exit(1)`.  The `except` clause catches only
`botocore.exceptions.ClientError` (logging `exitMsg` and exiting 1); a
`KeyError` from `generate_token` propagates uncaught. -/
def lambda_handler (env : AwsEnv) (p : Provider) (pfx : String) :
    RunResult × List Ev :=
  let pre := [Ev.logInfo attemptMsg]
  match get_edl_creds env with
  | (Except.error (PyErr.clientError _), evs) =>
      (RunResult.exit1, pre ++ evs ++ [Ev.logInfo exitMsg])
  | (Except.error e, evs) => (RunResult.uncaught e, pre ++ evs)
  | (Except.ok _, evs1) =>
      match generate_token p with
      | (Except.error (PyErr.clientError _), evs2) =>
          (RunResult.exit1, pre ++ evs1 ++ evs2 ++ [Ev.logInfo exitMsg])
      | (Except.error e, evs2) =>
          (RunResult.uncaught e, pre ++ evs1 ++ evs2)
      | (Except.ok tok, evs2) =>
          match store_token env (tokToPVal tok) pfx with
          | (Except.error (PyErr.clientError _), evs3) =>
              (RunResult.exit1,
               pre ++ evs1 ++ evs2 ++ evs3 ++ [Ev.logInfo exitMsg])
          | (Except.error e, evs3) =>
              (RunResult.uncaught e, pre ++ evs1 ++ evs2 ++ evs3)
          | (Except.ok _, evs3) =>
              match tok with
              | GenResult.failed =>
                  (RunResult.exit1,
                   pre ++ evs1 ++ evs2 ++ evs3 ++ [Ev.logInfo exitMsg])
              | GenResult.tok _ =>
                  (RunResult.ok, pre ++ evs1 ++ evs2 ++ evs3)

/- Trace observations. -/

/-- Is the event a token-creation request? -/
def isCreate : Ev → Bool
  | Ev.httpCreate => true
  | _ => false

/-- Is the event a list-tokens request? -/
def isList : Ev → Bool
  | Ev.httpList => true
  | _ => false

/-- Is the event any HTTP call to the identity provider? -/
def isProviderCall : Ev → Bool
  | Ev.httpCreate => true
  | Ev.httpList => true
  | Ev.httpRevoke _ => true
  | _ => false

/-- Is the event a KMS `describe_key` call? -/
def isKms : Ev → Bool
  | Ev.kmsDescribeKey _ => true
  | _ => false

/-- Number of token-creation requests in a trace. -/
def createCount (evs : List Ev) : Nat := (evs.filter isCreate).length

/-- Number of list-tokens requests in a trace. -/
def listCount (evs : List Ev) : Nat := (evs.filter isList).length

/-- The tokens revoked in a trace, in order. -/
def revokesOf (evs : List Ev) : List String :=
  evs.filterMap fun e =>
    match e with
    | Ev.httpRevoke t => some t
    | _ => none

/-- The `put_parameter` calls in a trace, in order. -/
def putsOf (evs : List Ev) : List PutParam :=
  evs.filterMap fun e =>
    match e with
    | Ev.ssmPut p => some p
    | _ => none

/-- The parameter store as a map from parameter name to stored value. -/
def ParamStore := String → Option PVal

/-- Effect of one `put_parameter` call on the store: with overwrite (the
only mode this program uses) the value under the name is replaced. -/
def applyPut (s : ParamStore) (p : PutParam) : ParamStore :=
  fun n =>
    if n = p.name then
      if p.overwrite ∨ (s p.name).isNone then some p.value else s p.name
    else s n

/-- An empty parameter store. -/
def emptyStore : ParamStore := fun _ => none

/- Concrete oracles for evaluating the embedding. -/

/-- AWS oracle where every call succeeds. -/
def envOk : AwsEnv :=
  { get_parameter := fun _ => Except.ok "secret"
    describe_key := fun _ => Except.ok "key-123"
    put_parameter := fun _ => Except.ok () }

/-- AWS oracle where KMS key resolution fails with a `ClientError`. -/
def envKmsFail : AwsEnv :=
  { envOk with describe_key := fun _ => Except.error "AccessDenied" }

/-- AWS oracle where the credential reads fail with a `ClientError`. -/
def envCredFail : AwsEnv :=
  { envOk with get_parameter := fun _ => Except.error "ParameterNotFound" }

/-- Provider returning `access_token` on the first attempt. -/
def provOk : Provider :=
  { resp1 := { error := none, access_token := some "abc123" }
    listResp := []
    resp2 := { error := none, access_token := none } }

/-- Provider returning the max-token-limit error, then (after remediation
of a three-entry token list, one entry lacking `access_token`) a fresh
token on the retry. -/
def provLimitOk : Provider :=
  { resp1 := { error := some "max_token_limit", access_token := none }
    listResp := [{ access_token := some "t1" }, { access_token := none },
                 { access_token := some "t2" }]
    resp2 := { error := none, access_token := some "xyz789" } }

/-- Provider returning the max-token-limit error on both creation
attempts. -/
def provLimitFail : Provider :=
  { resp1 := { error := some "max_token_limit", access_token := none }
    listResp := [{ access_token := some "t1" }]
    resp2 := { error := some "max_token_limit", access_token := none } }

/-- Provider returning a non-capacity error on the first attempt. -/
def provOtherErr : Provider :=
  { resp1 := { error := some "invalid_credentials", access_token := none }
    listResp := []
    resp2 := { error := none, access_token := none } }

/-- Provider whose first response carries both an `error` field and an
`access_token` field. -/
def provBoth : Provider :=
  { resp1 := { error := some "invalid_credentials", access_token := some "tokX" }
    listResp := []
    resp2 := { error := none, access_token := none } }

/-- Provider whose first response carries neither `error` nor
`access_token`. -/
def provEmpty : Provider :=
  { resp1 := { error := none, access_token := none }
    listResp := []
    resp2 := { error := none, access_token := none } }

/- Helper lemmas about the revoke loop trace. -/

theorem filter_isCreate_revokeEvents (l : List TokEntry) :
    (revokeEvents l).filter isCreate = [] := by
  induction l with
  | nil => rfl
  | cons e rest ih =>
      cases he : e.access_token <;>
        simp [revokeEvents, he, List.filter_cons, isCreate, ih]

theorem filter_isList_revokeEvents (l : List TokEntry) :
    (revokeEvents l).filter isList = [] := by
  induction l with
  | nil => rfl
  | cons e rest ih =>
      cases he : e.access_token <;>
        simp [revokeEvents, he, List.filter_cons, isList, ih]

theorem revokesOf_nil : revokesOf [] = [] := rfl

theorem revokesOf_cons (e : Ev) (l : List Ev) :
    revokesOf (e :: l) =
      (match e with | Ev.httpRevoke t => [t] | _ => []) ++ revokesOf l := by
  cases e <;> simp [revokesOf, List.filterMap_cons]

theorem revokesOf_append (a b : List Ev) :
    revokesOf (a ++ b) = revokesOf a ++ revokesOf b := by
  simp [revokesOf, List.filterMap_append]

theorem revokesOf_revokeEvents (l : List TokEntry) :
    revokesOf (revokeEvents l) = l.filterMap TokEntry.access_token := by
  induction l with
  | nil => rfl
  | cons e rest ih =>
      cases he : e.access_token <;>
        simp [revokeEvents, he, revokesOf_cons, List.filterMap_cons, ih]

/-- C9: if the first token-creation response contains neither an `error`
field nor an `access_token` field, `generate_token` raises an unhandled
`KeyError` instead of returning a failure value. -/
theorem C9_missing_fields_keyerror (p : Provider)
    (h1 : p.resp1.error = none) (h2 : p.resp1.access_token = none) :
    (generate_token p).1 = Except.error (PyErr.keyError "access_token") := by
  simp [generate_token, h1, h2]

/-- Witness for C9 at the concrete provider `provEmpty`. -/
theorem C9_missing_fields_keyerror_witness :
    (generate_token provEmpty).1 = Except.error (PyErr.keyError "access_token") :=
  C9_missing_fields_keyerror provEmpty rfl rfl

/-- C5: a first response with an `error` field other than
`"max_token_limit"` makes `generate_token` return `False` (no exception),
with zero list-tokens calls, zero revoke calls, and the error logged. -/
theorem C5_other_error_fails_fast (p : Provider) (e : String)
    (h1 : p.resp1.error = some e) (h2 : e ≠ "max_token_limit") :
    (generate_token p).1 = Except.ok GenResult.failed ∧
    listCount (generate_token p).2 = 0 ∧
    revokesOf (generate_token p).2 = [] ∧
    Ev.logError edlErrMsg ∈ (generate_token p).2 := by
  simp [generate_token, h1, h2, listCount, revokesOf, isList,
    List.filter_cons, List.filterMap_cons]

/-- Witness for C5 at the concrete provider `provOtherErr`. -/
theorem C5_other_error_fails_fast_witness :
    (generate_token provOtherErr).1 = Except.ok GenResult.failed ∧
    listCount (generate_token provOtherErr).2 = 0 ∧
    revokesOf (generate_token provOtherErr).2 = [] ∧
    Ev.logError edlErrMsg ∈ (generate_token provOtherErr).2 :=
  C5_other_error_fails_fast provOtherErr "invalid_credentials" rfl (by decide)

/-- C3 counterexample: at the concrete provider `provBoth`, whose first
response contains both `"error": "invalid_credentials"` and
`"access_token": "tokX"`, `generate_token` does not return that access
token: the `error` check comes first and the function returns `False`. -/
theorem C3_counterexample :
    provBoth.resp1.access_token = some "tokX" ∧
    (generate_token provBoth).1 ≠ Except.ok (GenResult.tok "tokX") ∧
    (generate_token provBoth).1 = Except.ok GenResult.failed := by
  refine ⟨rfl, ?_, rfl⟩
  simp [show (generate_token provBoth).1 = Except.ok GenResult.failed from rfl]

/-- C3 (amended): if the first token-creation response contains an
`access_token` field and no `error` field, `generate_token` returns that
exact token, with no list-tokens call and no revoke call. -/
theorem C3_first_success (p : Provider) (t : String)
    (h1 : p.resp1.error = none) (h2 : p.resp1.access_token = some t) :
    (generate_token p).1 = Except.ok (GenResult.tok t) ∧
    listCount (generate_token p).2 = 0 ∧
    revokesOf (generate_token p).2 = [] := by
  simp [generate_token, h1, h2, listCount, revokesOf, isList,
    List.filter_cons, List.filterMap_cons]

/-- Witness for the amended C3 at the concrete provider `provOk`. -/
theorem C3_first_success_witness :
    (generate_token provOk).1 = Except.ok (GenResult.tok "abc123") ∧
    listCount (generate_token provOk).2 = 0 ∧
    revokesOf (generate_token provOk).2 = [] :=
  C3_first_success provOk "abc123" rfl rfl

/-- C4: no matter what the provider responds, `generate_token` sends at
most two token-creation requests. -/
theorem C4_at_most_two_creates (p : Provider) :
    createCount (generate_token p).2 ≤ 2 := by
  rcases h1 : p.resp1.error with _ | e
  · rcases h2 : p.resp1.access_token with _ | t <;>
      simp [generate_token, h1, h2, createCount, isCreate, List.filter_cons]
  · by_cases he : e = "max_token_limit"
    · rcases h2 : p.resp2.error with _ | e2
      · rcases h3 : p.resp2.access_token with _ | t <;>
          simp [generate_token, handle_token_error, h1, h2, h3, he,
            createCount, isCreate, List.filter_cons, List.filter_append,
            filter_isCreate_revokeEvents]
      · simp [generate_token, handle_token_error, h1, h2, he,
          createCount, isCreate, List.filter_cons, List.filter_append,
          filter_isCreate_revokeEvents]
    · simp [generate_token, h1, he, createCount, isCreate, List.filter_cons]

/-- Witness for C4 at the concrete provider `provLimitFail`, which takes
the remediation path. -/
theorem C4_at_most_two_creates_witness :
    createCount (generate_token provLimitFail).2 ≤ 2 :=
  C4_at_most_two_creates provLimitFail

/-- C2: when the first response is the max-token-limit error, the
remediation performs exactly one list-tokens call, one revoke per listed
entry with an `access_token` field (in order, skipping the rest), exactly
one further creation call (two in total), and returns the new token if the
retry succeeds, or `False` if the retry still carries an `error` field. -/
theorem C2_max_limit_remediation (p : Provider)
    (h : p.resp1.error = some "max_token_limit") :
    listCount (generate_token p).2 = 1 ∧
    revokesOf (generate_token p).2 = p.listResp.filterMap TokEntry.access_token ∧
    createCount (generate_token p).2 = 2 ∧
    (p.resp2.error.isSome → (generate_token p).1 = Except.ok GenResult.failed) ∧
    (∀ t, p.resp2.error = none → p.resp2.access_token = some t →
      (generate_token p).1 = Except.ok (GenResult.tok t)) := by
  rcases h2 : p.resp2.error with _ | e2
  · rcases h3 : p.resp2.access_token with _ | t <;>
      simp [generate_token, handle_token_error, h, h2, h3, listCount,
        createCount, revokesOf_cons, revokesOf_append, revokesOf_nil,
        isList, isCreate, List.filter_cons, List.filter_append,
        filter_isCreate_revokeEvents, filter_isList_revokeEvents,
        revokesOf_revokeEvents]
  · simp [generate_token, handle_token_error, h, h2, listCount,
      createCount, revokesOf_cons, revokesOf_append, revokesOf_nil,
      isList, isCreate, List.filter_cons, List.filter_append,
      filter_isCreate_revokeEvents, filter_isList_revokeEvents,
      revokesOf_revokeEvents]

/-- Witness for C2 at the concrete provider `provLimitOk`: one list call,
revokes for `t1` and `t2` (the middle entry has no `access_token`), two
creation calls, and the fresh token from the retry. -/
theorem C2_max_limit_remediation_witness :
    listCount (generate_token provLimitOk).2 = 1 ∧
    revokesOf (generate_token provLimitOk).2 = ["t1", "t2"] ∧
    createCount (generate_token provLimitOk).2 = 2 ∧
    (generate_token provLimitOk).1 = Except.ok (GenResult.tok "xyz789") := by
  obtain ⟨h1, h2, h3, _, h5⟩ := C2_max_limit_remediation provLimitOk rfl
  exact ⟨h1, h2.trans (by decide), h3, h5 "xyz789" rfl rfl⟩

/-- C10: when the first response is the max-token-limit error and the
retried request also returns an `error` field, `generate_token` returns
the Python boolean `False` (modelled by `GenResult.failed`, not an
exception), logs the EDL error, and still emits the info message
"Successfully generated EDL bearer token." as its final log line before
returning. -/
theorem C10_retry_fail_logs_success (p : Provider) (e2 : String)
    (h1 : p.resp1.error = some "max_token_limit")
    (h2 : p.resp2.error = some e2) :
    (generate_token p).1 = Except.ok GenResult.failed ∧
    Ev.logError edlErrMsg ∈ (generate_token p).2 ∧
    (generate_token p).2.getLast? = some (Ev.logInfo genOkMsg) := by
  refine ⟨by simp [generate_token, handle_token_error, h1, h2],
    by simp [generate_token, handle_token_error, h1, h2], ?_⟩
  simp [generate_token, handle_token_error, h1, h2]
  rw [← List.cons_append, List.getLast?_append_cons]
  simp [List.getLast?_cons_cons]

/-- Witness for C10 at the concrete provider `provLimitFail`. -/
theorem C10_retry_fail_logs_success_witness :
    (generate_token provLimitFail).1 = Except.ok GenResult.failed ∧
    Ev.logError edlErrMsg ∈ (generate_token provLimitFail).2 ∧
    (generate_token provLimitFail).2.getLast? = some (Ev.logInfo genOkMsg) :=
  C10_retry_fail_logs_success provLimitFail "max_token_limit" rfl rfl

/-- C7: when KMS key-alias resolution fails, `store_token` re-raises the
`ClientError` after logging, and no `put_parameter` call is made. -/
theorem C7_kms_fail_no_put (env : AwsEnv) (tok : PVal) (pfx : String)
    (e : String) (h : env.describe_key (keyAlias pfx) = Except.error e) :
    (store_token env tok pfx).1 = Except.error (PyErr.clientError e) ∧
    putsOf (store_token env tok pfx).2 = [] ∧
    Ev.logError storeErrMsg ∈ (store_token env tok pfx).2 := by
  simp [store_token, h, putsOf, List.filterMap_cons]

/-- Witness for C7 at the concrete oracle `envKmsFail`. -/
theorem C7_kms_fail_no_put_witness :
    (store_token envKmsFail (PVal.str "abc123") "uds").1 =
      Except.error (PyErr.clientError "AccessDenied") ∧
    putsOf (store_token envKmsFail (PVal.str "abc123") "uds").2 = [] ∧
    Ev.logError storeErrMsg ∈ (store_token envKmsFail (PVal.str "abc123") "uds").2 :=
  C7_kms_fail_no_put envKmsFail (PVal.str "abc123") "uds" "AccessDenied" rfl

theorem store_token_ok_trace (env : AwsEnv) (tok : PVal) (pfx : String)
    (k : String) (hk : env.describe_key (keyAlias pfx) = Except.ok k)
    (hp : env.put_parameter (tokenPut tok k) = Except.ok ()) :
    store_token env tok pfx =
      (Except.ok (),
       [Ev.kmsDescribeKey (keyAlias pfx), Ev.ssmPut (tokenPut tok k),
        Ev.logInfo storeOkMsg]) := by
  simp [store_token, hk, hp]

/-- C6: a successful `store_token` call performs exactly one
`put_parameter` call, with name `bearer--edl--token`, description
`Temporary EDL bearer token`, the given token as value, type
`SecureString`, the key id resolved from alias
`{prefix}-ssm-parameter-store`, overwrite enabled, and tier `Standard`;
and after two successful calls with different tokens the store holds the
second token under the fixed name (last write wins). -/
theorem C6_store_token_fields (env env2 : AwsEnv) (t1 t2 : PVal)
    (pfx pfx2 : String) (s : ParamStore)
    (h1 : (store_token env t1 pfx).1 = Except.ok ())
    (h2 : (store_token env2 t2 pfx2).1 = Except.ok ()) :
    (∃ k, env.describe_key (keyAlias pfx) = Except.ok k ∧
      putsOf (store_token env t1 pfx).2 =
        [{ name := "bearer--edl--token"
           description := "Temporary EDL bearer token"
           value := t1
           ptype := "SecureString"
           keyId := k
           overwrite := true
           tier := "Standard" }]) ∧
    ((putsOf (store_token env t1 pfx).2 ++
        putsOf (store_token env2 t2 pfx2).2).foldl applyPut s)
      "bearer--edl--token" = some t2 := by
  rcases hk : env.describe_key (keyAlias pfx) with e | k
  · simp [store_token, hk] at h1
  · rcases hp : env.put_parameter (tokenPut t1 k) with e | u
    · simp [store_token, hk, hp] at h1
    · cases u
      rcases hk2 : env2.describe_key (keyAlias pfx2) with e2 | k2
      · simp [store_token, hk2] at h2
      · rcases hp2 : env2.put_parameter (tokenPut t2 k2) with e2 | u2
        · simp [store_token, hk2, hp2] at h2
        · cases u2
          have T1 := store_token_ok_trace env t1 pfx k hk hp
          have T2 := store_token_ok_trace env2 t2 pfx2 k2 hk2 hp2
          refine ⟨⟨k, rfl, ?_⟩, ?_⟩
          · rw [T1]
            simp [putsOf, List.filterMap_cons, tokenPut]
          · rw [T1, T2]
            simp [putsOf, List.filterMap_cons, applyPut, tokenPut]

/-- Witness for C6 at the all-succeeding oracle `envOk`, storing `"a"`
then `"b"` from the empty store. -/
theorem C6_store_token_fields_witness :
    putsOf (store_token envOk (PVal.str "a") "uds").2 =
      [{ name := "bearer--edl--token"
         description := "Temporary EDL bearer token"
         value := PVal.str "a"
         ptype := "SecureString"
         keyId := "key-123"
         overwrite := true
         tier := "Standard" }] ∧
    ((putsOf (store_token envOk (PVal.str "a") "uds").2 ++
        putsOf (store_token envOk (PVal.str "b") "uds").2).foldl applyPut
      emptyStore) "bearer--edl--token" = some (PVal.str "b") := by
  obtain ⟨⟨k, hk, hput⟩, hlast⟩ :=
    C6_store_token_fields envOk envOk (PVal.str "a") (PVal.str "b")
      "uds" "uds" emptyStore rfl rfl
  have hk2 : k = "key-123" := by
    simp [envOk] at hk
    exact hk.symm
  exact ⟨hk2 ▸ hput, hlast⟩

/-- C8: when reading the credentials raises a `ClientError`, the run
exits 1 after logging, with no identity-provider call, no KMS call and no
`put_parameter` call. -/
theorem C8_cred_fail_no_calls (env : AwsEnv) (p : Provider) (pfx : String)
    (err : PyErr) (h : (get_edl_creds env).1 = Except.error err) :
    (lambda_handler env p pfx).1 = RunResult.exit1 ∧
    (lambda_handler env p pfx).2.filter isProviderCall = [] ∧
    (lambda_handler env p pfx).2.filter isKms = [] ∧
    putsOf (lambda_handler env p pfx).2 = [] ∧
    Ev.logError credErrMsg ∈ (lambda_handler env p pfx).2 := by
  rcases h1 : env.get_parameter "edl_username" with e | u
  · simp [lambda_handler, get_edl_creds, h1, isProviderCall, isKms,
      putsOf, List.filter_cons, List.filterMap_cons]
  · rcases h2 : env.get_parameter "edl_password" with e | pw
    · simp [lambda_handler, get_edl_creds, h1, h2, isProviderCall, isKms,
        putsOf, List.filter_cons, List.filterMap_cons]
    · simp [get_edl_creds, h1, h2] at h

/-- Witness for C8 at the concrete oracle `envCredFail`. -/
theorem C8_cred_fail_no_calls_witness :
    (lambda_handler envCredFail provOk "uds").1 = RunResult.exit1 ∧
    (lambda_handler envCredFail provOk "uds").2.filter isProviderCall = [] ∧
    (lambda_handler envCredFail provOk "uds").2.filter isKms = [] ∧
    putsOf (lambda_handler envCredFail provOk "uds").2 = [] ∧
    Ev.logError credErrMsg ∈ (lambda_handler envCredFail provOk "uds").2 :=
  C8_cred_fail_no_calls envCredFail provOk "uds"
    (PyErr.clientError "ParameterNotFound") rfl

/-- C1: demonstration of the claim's failure on the code.  At a run where
the provider returns `{"error": "invalid_credentials"}` (so
`generate_token` yields the failure value `False`) and every AWS call
succeeds, `lambda_handler` still calls `store_token` before its
`if not token` check: the trace contains a `put_parameter` call whose
`Value` is the Python literal `False`, and only afterwards does the run
exit with status 1.  The claim says no parameter-store write is attempted
on a `Failure` outcome and that a value is stored only when a token was
acquired; the code violates both. -/
theorem C1_failure_outcome_still_writes :
    (generate_token provOtherErr).1 = Except.ok GenResult.failed ∧
    (lambda_handler envOk provOtherErr "confluence-dev").1 = RunResult.exit1 ∧
    putsOf (lambda_handler envOk provOtherErr "confluence-dev").2 =
      [tokenPut PVal.boolFalse "key-123"] :=
  ⟨rfl, rfl, rfl⟩

end CmrTokenCreator
